import Mathlib

/-!
A verification development for the agentic career advisor repository
(`main.py`, `api_server.py`, `app.py`).

The hosted language model, reached through `client.messages.create`, is
modelled as an oracle: a function from the request actually sent (model
name, max_tokens, system prompt, message list) to either an error (a
raised exception, carried as its string form) or a response object with
a list of content blocks.  Every advisor operation returns, next to its
Python return value (an `Except` capturing raised exceptions), the list
of requests it issued, in order, so request counts and contents can be
stated.
-/

/-- The enum `AgentRole` of `main.py` (values `coordinator`, `skills_analyzer`,
`career_matcher`, `learning_pathfinder`, `industry_researcher`). -/
inductive AgentRole where
  | coordinator
  | skills_analyzer
  | career_matcher
  | learning_pathfinder
  | industry_researcher
deriving DecidableEq, Repr

/-- The five members of `AgentRole`, in declaration order (iteration order of
`for role in AgentRole`). -/
def AgentRole.all : List AgentRole :=
  [AgentRole.coordinator, AgentRole.skills_analyzer, AgentRole.career_matcher,
   AgentRole.learning_pathfinder, AgentRole.industry_researcher]

/-- The dataclass `StudentProfile` of `main.py`. -/
structure StudentProfile where
  name : String
  education_level : String
  major : String
  skills : List String
  interests : List String
  career_goals : String
  experience : List String
deriving DecidableEq, Repr

/-- One entry of the `messages` list passed to `client.messages.create`. -/
structure Message where
  role : String
  content : String
deriving DecidableEq, Repr

/-- The request sent by `client.messages.create` in `CareerAdvisorAgent.process`:
its model name, `max_tokens`, system prompt and message list. -/
structure Request where
  model : String
  max_tokens : Nat
  system : String
  messages : List Message
deriving DecidableEq, Repr

/-- One block of `response.content`; the code reads only its `.text`. -/
structure ContentBlock where
  text : String
deriving DecidableEq, Repr

/-- The response object returned by `client.messages.create`. -/
structure MessagesResponse where
  content : List ContentBlock
deriving DecidableEq, Repr

/-- The hosted model, as seen through `client.messages.create`: for a request it
either raises (error, carried as the exception's string form) or returns a
response object. -/
abbrev Oracle := Request → Except String MessagesResponse

/-- A record of one issued model request: which agent role sent it and the
request itself. -/
structure Call where
  agent : AgentRole
  request : Request
deriving DecidableEq, Repr

/-- The class `CareerAdvisorAgent` of `main.py`: its fields `role`, the stored
api key and the fixed `model` string set in `__init__`. -/
structure CareerAdvisorAgent where
  role : AgentRole
  api_key : String
  model : String
deriving DecidableEq, Repr

/-- `CareerAdvisorAgent.__init__`: stores the role and api key and sets
`self.model = "claude-sonnet-4-20250514"`. -/
def CareerAdvisorAgent.init (role : AgentRole) (api_key : String) : CareerAdvisorAgent :=
  { role := role, api_key := api_key, model := "claude-sonnet-4-20250514" }

/-- `CareerAdvisorAgent.get_system_prompt`: the dict literal of `main.py`
indexed by `self.role`. -/
def CareerAdvisorAgent.get_system_prompt (a : CareerAdvisorAgent) : String :=
  match a.role with
  | AgentRole.coordinator =>
      "You are a Career Advisor Coordinator. Your role is to:\n1. Understand student queries and profiles\n2. Delegate tasks to specialized agents\n3. Synthesize responses from all agents into coherent career advice\n4. Ensure all aspects of career planning are covered"
  | AgentRole.skills_analyzer =>
      "You are a Skills Analysis Agent. Your role is to:\n1. Analyze student\x27s current skills and experiences\n2. Identify skill gaps for desired careers\n3. Assess transferable skills\n4. Provide skill development recommendations"
  | AgentRole.career_matcher =>
      "You are a Career Matching Agent. Your role is to:\n1. Match student profiles with suitable career paths\n2. Consider interests, skills, and market demand\n3. Provide career options with growth potential\n4. Explain why each career is a good fit"
  | AgentRole.learning_pathfinder =>
      "You are a Learning Path Agent. Your role is to:\n1. Design personalized learning roadmaps\n2. Recommend courses, certifications, and resources\n3. Create timeline-based learning plans\n4. Suggest practical projects and experiences"
  | AgentRole.industry_researcher =>
      "You are an Industry Research Agent. Your role is to:\n1. Provide current industry trends and insights\n2. Analyze job market conditions\n3. Share salary expectations and growth projections\n4. Identify emerging opportunities in various sectors"

/-- The single-quote character, the default quote of Python `repr` on strings. -/
def squote : Char := Char.ofNat 39

/-- The double-quote character. -/
def dquote : Char := Char.ofNat 34

/-- How CPython `repr` renders one character of a string quoted with `q`
(backslash, the quote and the common control characters are escaped; other
characters of this code base are printable and kept as they are). -/
def pyEscapeChar (q c : Char) : String :=
  if c = Char.ofNat 92 then "\\\\"
  else if c = q then "\\" ++ String.singleton q
  else if c = Char.ofNat 10 then "\\n"
  else if c = Char.ofNat 13 then "\\r"
  else if c = Char.ofNat 9 then "\\t"
  else String.singleton c

/-- CPython `repr` of a string: single-quoted, unless the string holds a single
quote and no double quote, in which case double-quoted. -/
def pyStrRepr (s : String) : String :=
  let q := if s.contains squote && !(s.contains dquote) then dquote else squote
  String.singleton q ++ String.join (s.data.map (pyEscapeChar q)) ++ String.singleton q

/-- CPython `str` of a `dict` with string keys and string values, as produced
by the f-string `f"Context: {context}"` in `process`. -/
def pyDictStr (d : List (String × String)) : String :=
  "\x7b" ++ String.intercalate ", " (d.map fun kv => pyStrRepr kv.1 ++ ": " ++ pyStrRepr kv.2) ++ "\x7d"

/-- The single user message content built by `CareerAdvisorAgent.process`:
the bare query, unless a truthy (non-`None`, non-empty) context dict was
passed, in which case `f"Context: {context}\n\n{query}"`. -/
def CareerAdvisorAgent.buildContent (query : String)
    (context : Option (List (String × String))) : String :=
  match context with
  | some d => if d.isEmpty then query else "Context: " ++ pyDictStr d ++ "\n\n" ++ query
  | none => query

/-- The request `CareerAdvisorAgent.process` hands to `client.messages.create`:
the agent's model, `max_tokens=2000`, its system prompt, and one user message. -/
def CareerAdvisorAgent.buildRequest (a : CareerAdvisorAgent) (query : String)
    (context : Option (List (String × String))) : Request :=
  { model := a.model, max_tokens := 2000, system := a.get_system_prompt,
    messages := [{ role := "user", content := CareerAdvisorAgent.buildContent query context }] }

/-- `CareerAdvisorAgent.process`: sends the built request and returns
`response.content[0].text`; a raised exception (from the call, or the
`IndexError` of `content[0]` on an empty list) propagates.  The second
component lists the requests issued (always exactly this one). -/
def CareerAdvisorAgent.process (o : Oracle) (a : CareerAdvisorAgent) (query : String)
    (context : Option (List (String × String))) : Except String String × List Call :=
  match o (a.buildRequest query context) with
  | Except.error e => (Except.error e, [⟨a.role, a.buildRequest query context⟩])
  | Except.ok resp =>
    match resp.content with
    | [] => (Except.error "list index out of range", [⟨a.role, a.buildRequest query context⟩])
    | b :: _ => (Except.ok b.text, [⟨a.role, a.buildRequest query context⟩])

/-- The class `AgenticCareerAdvisor`: after a successful `__init__` it holds the
resolved api key (its agents dict is a pure function of that key, `agents` below). -/
structure AgenticCareerAdvisor where
  api_key : String
deriving DecidableEq, Repr

/-- Python truthiness of an optional string (`None` and `""` are falsy). -/
def pyTruthy : Option String → Bool
  | none => false
  | some s => s != ""

/-- Python `a or b` on optional strings: `a` when truthy, else `b`. -/
def pyOr (a b : Option String) : Option String :=
  if pyTruthy a then a else b

/-- `AgenticCareerAdvisor.__init__`: `self.api_key = api_key or os.getenv("ANTHROPIC_API_KEY")`;
raises `ValueError("ANTHROPIC_API_KEY not found")` when the result is falsy, before any
agent is constructed; otherwise the advisor (and with it its agents dict) exists.
`env_key` is the value of `os.getenv("ANTHROPIC_API_KEY")` (`none` when unset). -/
def AgenticCareerAdvisor.init (api_key : Option String) (env_key : Option String) :
    Except String AgenticCareerAdvisor :=
  let key := pyOr api_key env_key
  if pyTruthy key then Except.ok { api_key := key.getD "" }
  else Except.error "ANTHROPIC_API_KEY not found"

/-- The dict comprehension `{role: CareerAdvisorAgent(role, self.api_key) for role in AgentRole}`. -/
def AgenticCareerAdvisor.agents (adv : AgenticCareerAdvisor) (r : AgentRole) : CareerAdvisorAgent :=
  CareerAdvisorAgent.init r adv.api_key

/-- `AgenticCareerAdvisor.create_student_context`: the profile serialized into the
f-string text block of `main.py`. -/
def AgenticCareerAdvisor.create_student_context (profile : StudentProfile) : String :=
  "\nStudent Profile:\n- Name: " ++ profile.name ++
  "\n- Education: " ++ profile.education_level ++ " in " ++ profile.major ++
  "\n- Skills: " ++ String.intercalate ", " profile.skills ++
  "\n- Interests: " ++ String.intercalate ", " profile.interests ++
  "\n- Career Goals: " ++ profile.career_goals ++
  "\n- Experience: " ++ String.intercalate ", " profile.experience ++ "\n"

/-- The fixed task query of `analyze_skills`. -/
def skillsQuery : String :=
  "Analyze this student\x27s skills and provide recommendations for skill development."

/-- The fixed task query of `find_career_matches`. -/
def matchesQuery : String :=
  "Based on this student\x27s profile, suggest 3-5 career paths that would be good matches."

/-- The task query of `create_learning_path` (an f-string over the target career). -/
def learningPathQuery (target_career : String) : String :=
  "Create a detailed learning path for this student to pursue a career in " ++ target_career ++ "."

/-- The task query of `research_industry` (an f-string over the industry). -/
def industryQuery (industry : String) : String :=
  "Provide current trends, job market insights, and opportunities in the " ++ industry ++ " industry."

/-- `AgenticCareerAdvisor.analyze_skills`. -/
def AgenticCareerAdvisor.analyze_skills (o : Oracle) (adv : AgenticCareerAdvisor)
    (profile : StudentProfile) : Except String String × List Call :=
  CareerAdvisorAgent.process o (adv.agents AgentRole.skills_analyzer) skillsQuery
    (some [("profile", AgenticCareerAdvisor.create_student_context profile)])

/-- `AgenticCareerAdvisor.find_career_matches`. -/
def AgenticCareerAdvisor.find_career_matches (o : Oracle) (adv : AgenticCareerAdvisor)
    (profile : StudentProfile) : Except String String × List Call :=
  CareerAdvisorAgent.process o (adv.agents AgentRole.career_matcher) matchesQuery
    (some [("profile", AgenticCareerAdvisor.create_student_context profile)])

/-- `AgenticCareerAdvisor.create_learning_path`. -/
def AgenticCareerAdvisor.create_learning_path (o : Oracle) (adv : AgenticCareerAdvisor)
    (profile : StudentProfile) (target_career : String) : Except String String × List Call :=
  CareerAdvisorAgent.process o (adv.agents AgentRole.learning_pathfinder)
    (learningPathQuery target_career)
    (some [("profile", AgenticCareerAdvisor.create_student_context profile)])

/-- `AgenticCareerAdvisor.research_industry`: note that no context dict is passed. -/
def AgenticCareerAdvisor.research_industry (o : Oracle) (adv : AgenticCareerAdvisor)
    (industry : String) : Except String String × List Call :=
  CareerAdvisorAgent.process o (adv.agents AgentRole.industry_researcher)
    (industryQuery industry) none

/-- The dict returned by `get_comprehensive_advice`. -/
structure ComprehensiveAdvice where
  skills_analysis : String
  career_matches : String
  action_plan : String
deriving DecidableEq, Repr

/-- The coordinator query f-string of `get_comprehensive_advice`. -/
def coordinatorQuery (skills_analysis career_matches student_context : String) : String :=
  "\nBased on the following analyses, provide comprehensive career advice:\n\nSKILLS ANALYSIS:\n" ++
  skills_analysis ++ "\n\nCAREER MATCHES:\n" ++ career_matches ++
  "\n\nStudent Profile:\n" ++ student_context ++ "\n\nProvide a cohesive career action plan.\n"

/-- `AgenticCareerAdvisor.get_comprehensive_advice`: skills analysis, then career
matching, then the coordinator fed both outputs; a raised exception stops the
remaining calls and propagates.  The second component lists the issued requests. -/
def AgenticCareerAdvisor.get_comprehensive_advice (o : Oracle) (adv : AgenticCareerAdvisor)
    (profile : StudentProfile) : Except String ComprehensiveAdvice × List Call :=
  match AgenticCareerAdvisor.analyze_skills o adv profile with
  | (Except.error e, t1) => (Except.error e, t1)
  | (Except.ok skills_analysis, t1) =>
    match AgenticCareerAdvisor.find_career_matches o adv profile with
    | (Except.error e, t2) => (Except.error e, t1 ++ t2)
    | (Except.ok career_matches, t2) =>
      match CareerAdvisorAgent.process o (adv.agents AgentRole.coordinator)
          (coordinatorQuery skills_analysis career_matches
            (AgenticCareerAdvisor.create_student_context profile)) none with
      | (Except.error e, t3) => (Except.error e, t1 ++ t2 ++ t3)
      | (Except.ok final_advice, t3) =>
        (Except.ok (ComprehensiveAdvice.mk skills_analysis career_matches final_advice),
          t1 ++ t2 ++ t3)

/-! ### The FastAPI layer (`api_server.py`) -/

/-- The pydantic request model `StudentProfileRequest`. -/
structure StudentProfileRequest where
  name : String
  education_level : String
  major : String
  skills : List String
  interests : List String
  career_goals : String
  experience : List String
deriving DecidableEq, Repr

/-- The response model `SkillsAnalysisResponse`. -/
structure SkillsAnalysisResponse where
  analysis : String
deriving DecidableEq, Repr

/-- The response model `CareerMatchesResponse`; its one field is called
`matches` in the source, a reserved word here, hence the trailing underscore. -/
structure CareerMatchesResponse where
  matches_ : String
deriving DecidableEq, Repr

/-- The request model `LearningPathRequest`. -/
structure LearningPathRequest where
  profile : StudentProfileRequest
  target_career : String
deriving DecidableEq, Repr

/-- The response model `LearningPathResponse`. -/
structure LearningPathResponse where
  learning_path : String
deriving DecidableEq, Repr

/-- The response model `IndustryResearchResponse`. -/
structure IndustryResearchResponse where
  research : String
deriving DecidableEq, Repr

/-- The response model `ComprehensiveAdviceResponse`. -/
structure ComprehensiveAdviceResponse where
  skills_analysis : String
  career_matches : String
  action_plan : String
deriving DecidableEq, Repr

/-- A Python value of the shapes held by `StudentProfileRequest` fields. -/
inductive PyVal where
  | str (s : String)
  | strList (l : List String)
deriving DecidableEq, Repr

/-- The field dictionary of a `StudentProfileRequest`, keys in declaration order
(as pydantic serializes the JSON request body). -/
def StudentProfileRequest.toDict (r : StudentProfileRequest) : List (String × PyVal) :=
  [("name", PyVal.str r.name), ("education_level", PyVal.str r.education_level),
   ("major", PyVal.str r.major), ("skills", PyVal.strList r.skills),
   ("interests", PyVal.strList r.interests), ("career_goals", PyVal.str r.career_goals),
   ("experience", PyVal.strList r.experience)]

/-- The field names of the JSON request body `StudentProfileRequest`. -/
def StudentProfileRequest.fieldNames : List String :=
  ["name", "education_level", "major", "skills", "interests", "career_goals", "experience"]

/-- `convert_to_base_profile` of `api_server.py`. -/
def convert_to_base_profile (profile : StudentProfileRequest) : StudentProfile :=
  { name := profile.name, education_level := profile.education_level, major := profile.major,
    skills := profile.skills, interests := profile.interests,
    career_goals := profile.career_goals, experience := profile.experience }

/-- What an endpoint handler produces: a JSON body under HTTP 200, or an
`HTTPException` with a status code and a detail string. -/
inductive ApiResult (α : Type) where
  | ok (value : α)
  | httpError (status_code : Nat) (detail : String)
deriving DecidableEq, Repr

/-- The advisor as the endpoints see it: one fallible operation per method of
`AgenticCareerAdvisor` that the endpoints call (`Except.error e` models a raised
exception whose `str` is `e`). -/
structure AdvisorOps where
  analyze_skills : StudentProfile → Except String String
  find_career_matches : StudentProfile → Except String String
  create_learning_path : StudentProfile → String → Except String String
  research_industry : String → Except String String
  get_comprehensive_advice : StudentProfile → Except String ComprehensiveAdvice

/-- The operations of a constructed `AgenticCareerAdvisor` over an oracle, packaged
for the endpoints (the value each method returns, traces dropped). -/
def AgenticCareerAdvisor.ops (o : Oracle) (adv : AgenticCareerAdvisor) : AdvisorOps :=
  { analyze_skills := fun p => (AgenticCareerAdvisor.analyze_skills o adv p).1,
    find_career_matches := fun p => (AgenticCareerAdvisor.find_career_matches o adv p).1,
    create_learning_path := fun p t => (AgenticCareerAdvisor.create_learning_path o adv p t).1,
    research_industry := fun i => (AgenticCareerAdvisor.research_industry o adv i).1,
    get_comprehensive_advice := fun p => (AgenticCareerAdvisor.get_comprehensive_advice o adv p).1 }

namespace ApiServer

/-- The body of `GET /`. -/
structure RootResponse where
  message : String
  version : String
  endpoints : List (String × String)
  docs : String
deriving DecidableEq, Repr

/-- The handler of `GET /` (it never touches the advisor). -/
def root : RootResponse :=
  { message := "Agentic AI Career Advisor API", version := "1.0.0",
    endpoints := [("skills_analysis", "/analyze/skills"), ("career_matches", "/match/careers"),
      ("learning_path", "/create/learning-path"),
      ("industry_research", "/research/industry/{industry_name}"),
      ("comprehensive_advice", "/advice/comprehensive")],
    docs := "/docs" }

/-- The body of `GET /health`. -/
structure HealthResponse where
  status : String
  advisor_initialized : Bool
deriving DecidableEq, Repr

/-- The handler of `GET /health`: always status `"healthy"`, with the flag telling
whether the module-level `advisor` was initialized. -/
def health_check (advisor : Option AdvisorOps) : HealthResponse :=
  { status := "healthy", advisor_initialized := advisor.isSome }

/-- The handler of `POST /analyze/skills`. -/
def analyze_skills (advisor : Option AdvisorOps) (profile : StudentProfileRequest) :
    ApiResult SkillsAnalysisResponse :=
  match advisor with
  | none => ApiResult.httpError 500 "Advisor not initialized"
  | some adv =>
    match adv.analyze_skills (convert_to_base_profile profile) with
    | Except.ok analysis => ApiResult.ok { analysis := analysis }
    | Except.error e => ApiResult.httpError 500 e

/-- The handler of `POST /match/careers`. -/
def match_careers (advisor : Option AdvisorOps) (profile : StudentProfileRequest) :
    ApiResult CareerMatchesResponse :=
  match advisor with
  | none => ApiResult.httpError 500 "Advisor not initialized"
  | some adv =>
    match adv.find_career_matches (convert_to_base_profile profile) with
    | Except.ok ms => ApiResult.ok { matches_ := ms }
    | Except.error e => ApiResult.httpError 500 e

/-- The handler of `POST /create/learning-path`. -/
def create_learning_path (advisor : Option AdvisorOps) (request : LearningPathRequest) :
    ApiResult LearningPathResponse :=
  match advisor with
  | none => ApiResult.httpError 500 "Advisor not initialized"
  | some adv =>
    match adv.create_learning_path (convert_to_base_profile request.profile)
        request.target_career with
    | Except.ok path => ApiResult.ok { learning_path := path }
    | Except.error e => ApiResult.httpError 500 e

/-- The handler of `GET /research/industry/{industry_name}`. -/
def research_industry (advisor : Option AdvisorOps) (industry_name : String) :
    ApiResult IndustryResearchResponse :=
  match advisor with
  | none => ApiResult.httpError 500 "Advisor not initialized"
  | some adv =>
    match adv.research_industry industry_name with
    | Except.ok research => ApiResult.ok { research := research }
    | Except.error e => ApiResult.httpError 500 e

/-- The handler of `POST /advice/comprehensive`. -/
def comprehensive_advice (advisor : Option AdvisorOps) (profile : StudentProfileRequest) :
    ApiResult ComprehensiveAdviceResponse :=
  match advisor with
  | none => ApiResult.httpError 500 "Advisor not initialized"
  | some adv =>
    match adv.get_comprehensive_advice (convert_to_base_profile profile) with
    | Except.ok advice =>
      ApiResult.ok (ComprehensiveAdviceResponse.mk advice.skills_analysis
        advice.career_matches advice.action_plan)
    | Except.error e => ApiResult.httpError 500 e

end ApiServer

/-! ### The Streamlit front end (`app.py`) -/

/-- The form inputs of `app.py`, as pairs of the bound variable and the widget
label, in the order they appear on the page. -/
def streamlit_form_fields : List (String × String) :=
  [("name", "Your Name"), ("education", "Education Level"),
   ("interest", "Your Interests (e.g. AI, Business, Design)"),
   ("skills", "Your Skills (e.g. Python, Math, Communication)"),
   ("goal", "Career Goal")]

/-- The prompt `app.py` builds from its five form inputs. -/
def app_prompt (name education interest skills goal : String) : String :=
  "\nYou are a helpful career advisor for students in India.\n\nStudent details:\nName: " ++
  name ++ "\nEducation: " ++ education ++ "\nInterests: " ++ interest ++
  "\nSkills: " ++ skills ++ "\nGoal: " ++ goal ++
  "\n\nGive:\n1. 3 suitable career options\n2. Why each fits\n3. A 6–12 month roadmap\n4. Skills to learn\n"

/-! ### Concrete fixtures used by witness theorems -/

/-- An oracle that answers every request with one content block `"REPLY"`. -/
def wOracle : Oracle := fun _ => Except.ok { content := [{ text := "REPLY" }] }

/-- An oracle on which every request raises `"Connection error"`. -/
def failOracle : Oracle := fun _ => Except.error "Connection error"

/-- A concrete student profile. -/
def wProfile : StudentProfile :=
  { name := "Ada", education_level := "BSc", major := "CS", skills := ["Lean"],
    interests := ["Math"], career_goals := "Research", experience := ["TA"] }

/-- A concrete advisor (a successfully constructed `AgenticCareerAdvisor`). -/
def wAdvisor : AgenticCareerAdvisor := { api_key := "k" }

/-- A concrete API request body. -/
def wRequest : StudentProfileRequest :=
  { name := "Ada", education_level := "BSc", major := "CS", skills := ["Lean"],
    interests := ["Math"], career_goals := "Research", experience := ["TA"] }

/-- A concrete learning-path request body. -/
def wLearnRequest : LearningPathRequest := { profile := wRequest, target_career := "ML Engineer" }

/-- Advisor operations that all raise an exception whose string form is `"boom"`. -/
def wOpsFail : AdvisorOps :=
  { analyze_skills := fun _ => Except.error "boom",
    find_career_matches := fun _ => Except.error "boom",
    create_learning_path := fun _ _ => Except.error "boom",
    research_industry := fun _ => Except.error "boom",
    get_comprehensive_advice := fun _ => Except.error "boom" }

/-- Advisor operations that all return successfully. -/
def wOpsOk : AdvisorOps :=
  { analyze_skills := fun _ => Except.ok "fine",
    find_career_matches := fun _ => Except.ok "fine",
    create_learning_path := fun _ _ => Except.ok "fine",
    research_industry := fun _ => Except.ok "fine",
    get_comprehensive_advice := fun _ => Except.ok (ComprehensiveAdvice.mk "sa" "cm" "ap") }

/-! ### Helper lemmas -/

/-- `process` issues exactly the one request it builds, whatever the oracle does. -/
theorem process_trace (o : Oracle) (a : CareerAdvisorAgent) (q : String)
    (c : Option (List (String × String))) :
    (CareerAdvisorAgent.process o a q c).2 = [⟨a.role, a.buildRequest q c⟩] := by
  unfold CareerAdvisorAgent.process
  rcases o (a.buildRequest q c) with e | resp
  · rfl
  · rcases resp with ⟨content⟩
    rcases content with _ | ⟨b, rest⟩ <;> rfl

/-- When `process` returns a string, the oracle's response at the built request
begins with the content block holding exactly that string. -/
theorem process_ok (o : Oracle) (a : CareerAdvisorAgent) (q : String)
    (c : Option (List (String × String))) (s : String) (tr : List Call)
    (h : CareerAdvisorAgent.process o a q c = (Except.ok s, tr)) :
    ∃ rest, o (a.buildRequest q c) = Except.ok { content := ⟨s⟩ :: rest } := by
  unfold CareerAdvisorAgent.process at h
  rcases ho : o (a.buildRequest q c) with e | resp
  · rw [ho] at h
    simp [Prod.ext_iff] at h
  · rw [ho] at h
    rcases resp with ⟨content⟩
    rcases content with _ | ⟨b, rest⟩
    · simp [Prod.ext_iff] at h
    · have hb : b.text = s := by
        have h1 := congrArg Prod.fst h
        simpa using h1
      refine ⟨rest, ?_⟩
      subst hb
      rfl

/-- The single call issued by `analyze_skills`. -/
theorem analyze_skills_trace (o : Oracle) (adv : AgenticCareerAdvisor) (p : StudentProfile) :
    (AgenticCareerAdvisor.analyze_skills o adv p).2 =
      [⟨AgentRole.skills_analyzer, (adv.agents AgentRole.skills_analyzer).buildRequest skillsQuery
        (some [("profile", AgenticCareerAdvisor.create_student_context p)])⟩] :=
  process_trace o (adv.agents AgentRole.skills_analyzer) skillsQuery
    (some [("profile", AgenticCareerAdvisor.create_student_context p)])

/-- The single call issued by `find_career_matches`. -/
theorem find_career_matches_trace (o : Oracle) (adv : AgenticCareerAdvisor) (p : StudentProfile) :
    (AgenticCareerAdvisor.find_career_matches o adv p).2 =
      [⟨AgentRole.career_matcher, (adv.agents AgentRole.career_matcher).buildRequest matchesQuery
        (some [("profile", AgenticCareerAdvisor.create_student_context p)])⟩] :=
  process_trace o (adv.agents AgentRole.career_matcher) matchesQuery
    (some [("profile", AgenticCareerAdvisor.create_student_context p)])

/-- The single call issued by `create_learning_path`. -/
theorem create_learning_path_trace (o : Oracle) (adv : AgenticCareerAdvisor)
    (p : StudentProfile) (t : String) :
    (AgenticCareerAdvisor.create_learning_path o adv p t).2 =
      [⟨AgentRole.learning_pathfinder, (adv.agents AgentRole.learning_pathfinder).buildRequest
        (learningPathQuery t) (some [("profile", AgenticCareerAdvisor.create_student_context p)])⟩] :=
  process_trace o (adv.agents AgentRole.learning_pathfinder) (learningPathQuery t)
    (some [("profile", AgenticCareerAdvisor.create_student_context p)])

/-- The single call issued by `research_industry`. -/
theorem research_industry_trace (o : Oracle) (adv : AgenticCareerAdvisor) (i : String) :
    (AgenticCareerAdvisor.research_industry o adv i).2 =
      [⟨AgentRole.industry_researcher, (adv.agents AgentRole.industry_researcher).buildRequest
        (industryQuery i) none⟩] :=
  process_trace o (adv.agents AgentRole.industry_researcher) (industryQuery i) none

/-! ### Claim theorems -/

/-- C3: `get_system_prompt` is a total constant catalogue over the agent roles:
agents with equal roles get equal prompts whatever their other state (key,
model), the role type has exactly the five listed members, and the five prompts
are pairwise distinct fixed strings. -/
theorem C3_system_prompt_catalogue :
    (∀ a b : CareerAdvisorAgent, a.role = b.role →
        a.get_system_prompt = b.get_system_prompt)
    ∧ AgentRole.all.length = 5
    ∧ (∀ r : AgentRole, r ∈ AgentRole.all)
    ∧ (AgentRole.all.map (fun r => (CareerAdvisorAgent.init r "").get_system_prompt)).Nodup := by
  refine ⟨?_, rfl, ?_, ?_⟩
  · intro a b h
    unfold CareerAdvisorAgent.get_system_prompt
    rw [h]
  · intro r
    cases r <;> decide
  · decide

/-- Witness for C3 at two concrete agents sharing a role but not an api key. -/
theorem C3_system_prompt_catalogue_witness :
    (CareerAdvisorAgent.init AgentRole.coordinator "k1").get_system_prompt
      = (CareerAdvisorAgent.init AgentRole.coordinator "k2").get_system_prompt :=
  C3_system_prompt_catalogue.1 (CareerAdvisorAgent.init AgentRole.coordinator "k1")
    (CareerAdvisorAgent.init AgentRole.coordinator "k2") rfl

/-- C6: `convert_to_base_profile` is a field-wise identity from
`StudentProfileRequest` to the base `StudentProfile`. -/
theorem C6_convert_to_base_profile_identity (r : StudentProfileRequest) :
    (convert_to_base_profile r).name = r.name
    ∧ (convert_to_base_profile r).education_level = r.education_level
    ∧ (convert_to_base_profile r).major = r.major
    ∧ (convert_to_base_profile r).skills = r.skills
    ∧ (convert_to_base_profile r).interests = r.interests
    ∧ (convert_to_base_profile r).career_goals = r.career_goals
    ∧ (convert_to_base_profile r).experience = r.experience :=
  ⟨rfl, rfl, rfl, rfl, rfl, rfl, rfl⟩

/-- C9: constructing `AgenticCareerAdvisor` raises
`ValueError("ANTHROPIC_API_KEY not found")` exactly when neither the `api_key`
argument nor the `ANTHROPIC_API_KEY` environment value is truthy (a non-empty
string); an empty-string argument falls back to the environment value; and an
advisor value (hence its agents dict) exists exactly in the non-raising case. -/
theorem C9_init_requires_api_key (api_key env_key : Option String) :
    ((AgenticCareerAdvisor.init api_key env_key = Except.error "ANTHROPIC_API_KEY not found")
        ↔ pyTruthy api_key = false ∧ pyTruthy env_key = false)
    ∧ ((∃ adv, AgenticCareerAdvisor.init api_key env_key = Except.ok adv)
        ↔ (pyTruthy api_key = true ∨ pyTruthy env_key = true))
    ∧ AgenticCareerAdvisor.init (some "") env_key = AgenticCareerAdvisor.init none env_key := by
  refine ⟨?_, ?_, ?_⟩
  · cases ha : pyTruthy api_key <;> cases he : pyTruthy env_key <;>
      simp [AgenticCareerAdvisor.init, pyOr, ha, he]
  · cases ha : pyTruthy api_key <;> cases he : pyTruthy env_key <;>
      simp [AgenticCareerAdvisor.init, pyOr, ha, he]
  · simp [AgenticCareerAdvisor.init, pyOr, pyTruthy]

/-- C10: with the module-level advisor uninitialized (`None`), each of the five
advisor-backed endpoints answers HTTP 500 with detail `"Advisor not initialized"`
for every input (no other work is reachable), while `GET /` and `GET /health`
still succeed; `/health` always reports status `"healthy"`, and only its
`advisor_initialized` flag tells the broken state apart. -/
theorem C10_uninitialized_advisor_behaviour :
    (∀ p, ApiServer.analyze_skills none p = ApiResult.httpError 500 "Advisor not initialized")
    ∧ (∀ p, ApiServer.match_careers none p = ApiResult.httpError 500 "Advisor not initialized")
    ∧ (∀ rq, ApiServer.create_learning_path none rq
        = ApiResult.httpError 500 "Advisor not initialized")
    ∧ (∀ i, ApiServer.research_industry none i = ApiResult.httpError 500 "Advisor not initialized")
    ∧ (∀ p, ApiServer.comprehensive_advice none p
        = ApiResult.httpError 500 "Advisor not initialized")
    ∧ (∀ advisor, (ApiServer.health_check advisor).status = "healthy")
    ∧ (ApiServer.health_check none).advisor_initialized = false
    ∧ (∀ ops, (ApiServer.health_check (some ops)).advisor_initialized = true)
    ∧ ApiServer.root.message = "Agentic AI Career Advisor API" :=
  ⟨fun _ => rfl, fun _ => rfl, fun _ => rfl, fun _ => rfl, fun _ => rfl,
   fun _ => rfl, rfl, fun _ => rfl, rfl⟩

/-- C7 fails as stated: the Streamlit form of `app.py` does not collect an
experience field at all, and the JSON request body also collects `major`, which
the claimed field list omits. -/
theorem C7_counterexample :
    "experience" ∉ streamlit_form_fields.map Prod.fst
    ∧ "major" ∈ StudentProfileRequest.fieldNames := by
  exact ⟨by decide, by decide⟩

/-- C7 amended: the JSON request body collects exactly name, education_level,
major, skills, interests, career_goals and experience; the Streamlit form
collects exactly name, education, interest, skills and goal — neither major nor
experience. -/
theorem C7_intake_fields :
    (∀ r : StudentProfileRequest, (StudentProfileRequest.toDict r).map Prod.fst
        = StudentProfileRequest.fieldNames)
    ∧ StudentProfileRequest.fieldNames
        = ["name", "education_level", "major", "skills", "interests", "career_goals", "experience"]
    ∧ streamlit_form_fields.map Prod.fst = ["name", "education", "interest", "skills", "goal"]
    ∧ "experience" ∉ streamlit_form_fields.map Prod.fst
    ∧ "major" ∉ streamlit_form_fields.map Prod.fst :=
  ⟨fun _ => rfl, rfl, rfl, by decide, by decide⟩

/-- C2: for each advisor-backed endpoint with an initialized advisor, an
exception `e` raised by the underlying advisor operation yields exactly HTTP 500
with detail the string form of `e`, and a successful result is wrapped unchanged
in the endpoint's response model; the handlers have no other branch. -/
theorem C2_endpoint_error_propagation (ops : AdvisorOps) (p : StudentProfileRequest)
    (rq : LearningPathRequest) (industry_name e : String) :
    (ops.analyze_skills (convert_to_base_profile p) = Except.error e →
        ApiServer.analyze_skills (some ops) p = ApiResult.httpError 500 e)
    ∧ (∀ s, ops.analyze_skills (convert_to_base_profile p) = Except.ok s →
        ApiServer.analyze_skills (some ops) p = ApiResult.ok { analysis := s })
    ∧ (ops.find_career_matches (convert_to_base_profile p) = Except.error e →
        ApiServer.match_careers (some ops) p = ApiResult.httpError 500 e)
    ∧ (∀ s, ops.find_career_matches (convert_to_base_profile p) = Except.ok s →
        ApiServer.match_careers (some ops) p = ApiResult.ok { matches_ := s })
    ∧ (ops.create_learning_path (convert_to_base_profile rq.profile) rq.target_career
          = Except.error e →
        ApiServer.create_learning_path (some ops) rq = ApiResult.httpError 500 e)
    ∧ (∀ s, ops.create_learning_path (convert_to_base_profile rq.profile) rq.target_career
          = Except.ok s →
        ApiServer.create_learning_path (some ops) rq = ApiResult.ok { learning_path := s })
    ∧ (ops.research_industry industry_name = Except.error e →
        ApiServer.research_industry (some ops) industry_name = ApiResult.httpError 500 e)
    ∧ (∀ s, ops.research_industry industry_name = Except.ok s →
        ApiServer.research_industry (some ops) industry_name = ApiResult.ok { research := s })
    ∧ (ops.get_comprehensive_advice (convert_to_base_profile p) = Except.error e →
        ApiServer.comprehensive_advice (some ops) p = ApiResult.httpError 500 e)
    ∧ (∀ a, ops.get_comprehensive_advice (convert_to_base_profile p) = Except.ok a →
        ApiServer.comprehensive_advice (some ops) p
          = ApiResult.ok (ComprehensiveAdviceResponse.mk a.skills_analysis
              a.career_matches a.action_plan)) := by
  refine ⟨?_, ?_, ?_, ?_, ?_, ?_, ?_, ?_, ?_, ?_⟩ <;>
    · intros
      simp_all [ApiServer.analyze_skills, ApiServer.match_careers,
        ApiServer.create_learning_path, ApiServer.research_industry,
        ApiServer.comprehensive_advice]

/-- Witness for C2: all ten branches at concrete operations that raise
`"boom"` or succeed. -/
theorem C2_endpoint_error_propagation_witness :
    ApiServer.analyze_skills (some wOpsFail) wRequest = ApiResult.httpError 500 "boom"
    ∧ ApiServer.analyze_skills (some wOpsOk) wRequest = ApiResult.ok { analysis := "fine" }
    ∧ ApiServer.match_careers (some wOpsFail) wRequest = ApiResult.httpError 500 "boom"
    ∧ ApiServer.match_careers (some wOpsOk) wRequest = ApiResult.ok { matches_ := "fine" }
    ∧ ApiServer.create_learning_path (some wOpsFail) wLearnRequest
        = ApiResult.httpError 500 "boom"
    ∧ ApiServer.create_learning_path (some wOpsOk) wLearnRequest
        = ApiResult.ok { learning_path := "fine" }
    ∧ ApiServer.research_industry (some wOpsFail) "tech" = ApiResult.httpError 500 "boom"
    ∧ ApiServer.research_industry (some wOpsOk) "tech" = ApiResult.ok { research := "fine" }
    ∧ ApiServer.comprehensive_advice (some wOpsFail) wRequest = ApiResult.httpError 500 "boom"
    ∧ ApiServer.comprehensive_advice (some wOpsOk) wRequest
        = ApiResult.ok (ComprehensiveAdviceResponse.mk "sa" "cm" "ap") :=
  ⟨(C2_endpoint_error_propagation wOpsFail wRequest wLearnRequest "tech" "boom").1 rfl,
   (C2_endpoint_error_propagation wOpsOk wRequest wLearnRequest "tech" "boom").2.1 "fine" rfl,
   (C2_endpoint_error_propagation wOpsFail wRequest wLearnRequest "tech" "boom").2.2.1 rfl,
   (C2_endpoint_error_propagation wOpsOk wRequest wLearnRequest "tech" "boom").2.2.2.1 "fine" rfl,
   (C2_endpoint_error_propagation wOpsFail wRequest wLearnRequest "tech" "boom").2.2.2.2.1 rfl,
   (C2_endpoint_error_propagation wOpsOk wRequest wLearnRequest "tech" "boom").2.2.2.2.2.1
     "fine" rfl,
   (C2_endpoint_error_propagation wOpsFail wRequest wLearnRequest "tech" "boom").2.2.2.2.2.2.1 rfl,
   (C2_endpoint_error_propagation wOpsOk wRequest wLearnRequest "tech" "boom").2.2.2.2.2.2.2.1
     "fine" rfl,
   (C2_endpoint_error_propagation wOpsFail wRequest wLearnRequest "tech"
     "boom").2.2.2.2.2.2.2.2.1 rfl,
   (C2_endpoint_error_propagation wOpsOk wRequest wLearnRequest "tech"
     "boom").2.2.2.2.2.2.2.2.2 (ComprehensiveAdvice.mk "sa" "cm" "ap") rfl⟩

/-- C4 fails as stated: `research_industry` serializes no student profile and
sends no context — at a concrete industry its one message is the bare task
query, and that query is not `"Context: " ++ s` for any string `s`. -/
theorem C4_counterexample :
    ((AgenticCareerAdvisor.research_industry wOracle wAdvisor "tech").2.map
        fun c => c.request.messages)
      = [[{ role := "user",
            content := "Provide current trends, job market insights, and opportunities in the tech industry." }]]
    ∧ ∀ s : String,
        "Provide current trends, job market insights, and opportunities in the tech industry."
          ≠ "Context: " ++ s := by
  refine ⟨?_, ?_⟩
  · rw [research_industry_trace]
    rfl
  · intro s h
    have hd := congrArg (fun t => t.data.take 9) h
    simp only [String.data_append] at hd
    have h9 : ("Context: ").data.length = 9 := by decide
    rw [← h9, List.take_left] at hd
    exact absurd hd (by decide)

/-- C4 amended: `analyze_skills`, `find_career_matches` and
`create_learning_path` each send a single-turn request whose one user message is
exactly `"Context: "`, the string form of the dict holding the serialized
profile, two newlines, and the fixed task query; `research_industry` sends a
single user message equal to its task query alone, with no profile context. -/
theorem C4_single_turn_requests (o : Oracle) (adv : AgenticCareerAdvisor)
    (p : StudentProfile) (target_career industry : String) :
    ((AgenticCareerAdvisor.analyze_skills o adv p).2.map fun c => c.request.messages)
      = [[{ role := "user", content := "Context: "
            ++ pyDictStr [("profile", AgenticCareerAdvisor.create_student_context p)]
            ++ "\n\n" ++ skillsQuery }]]
    ∧ ((AgenticCareerAdvisor.find_career_matches o adv p).2.map fun c => c.request.messages)
      = [[{ role := "user", content := "Context: "
            ++ pyDictStr [("profile", AgenticCareerAdvisor.create_student_context p)]
            ++ "\n\n" ++ matchesQuery }]]
    ∧ ((AgenticCareerAdvisor.create_learning_path o adv p target_career).2.map
          fun c => c.request.messages)
      = [[{ role := "user", content := "Context: "
            ++ pyDictStr [("profile", AgenticCareerAdvisor.create_student_context p)]
            ++ "\n\n" ++ learningPathQuery target_career }]]
    ∧ ((AgenticCareerAdvisor.research_industry o adv industry).2.map
          fun c => c.request.messages)
      = [[{ role := "user", content := industryQuery industry }]] := by
  refine ⟨?_, ?_, ?_, ?_⟩
  · rw [analyze_skills_trace]
    rfl
  · rw [find_career_matches_trace]
    rfl
  · rw [create_learning_path_trace]
    rfl
  · rw [research_industry_trace]
    rfl

/-- Inversion for a successful `get_comprehensive_advice`: the three underlying
calls succeeded with exactly the dict's three fields, the coordinator saw the
query built from the first two outputs, and the trace is the three calls'
traces in order. -/
theorem comprehensive_ok_elim (o : Oracle) (adv : AgenticCareerAdvisor) (p : StudentProfile)
    (res : ComprehensiveAdvice) (tr : List Call)
    (h : AgenticCareerAdvisor.get_comprehensive_advice o adv p = (Except.ok res, tr)) :
    ∃ t1 t2 t3,
      AgenticCareerAdvisor.analyze_skills o adv p = (Except.ok res.skills_analysis, t1)
      ∧ AgenticCareerAdvisor.find_career_matches o adv p = (Except.ok res.career_matches, t2)
      ∧ CareerAdvisorAgent.process o (adv.agents AgentRole.coordinator)
          (coordinatorQuery res.skills_analysis res.career_matches
            (AgenticCareerAdvisor.create_student_context p)) none
          = (Except.ok res.action_plan, t3)
      ∧ tr = t1 ++ t2 ++ t3 := by
  unfold AgenticCareerAdvisor.get_comprehensive_advice at h
  rcases h1 : AgenticCareerAdvisor.analyze_skills o adv p with ⟨r1, t1⟩
  rw [h1] at h
  rcases r1 with e1 | s1
  · simp at h
  · simp only [] at h
    rcases h2 : AgenticCareerAdvisor.find_career_matches o adv p with ⟨r2, t2⟩
    rw [h2] at h
    rcases r2 with e2 | s2
    · simp at h
    · simp only [] at h
      rcases h3 : CareerAdvisorAgent.process o (adv.agents AgentRole.coordinator)
          (coordinatorQuery s1 s2 (AgenticCareerAdvisor.create_student_context p)) none
        with ⟨r3, t3⟩
      rw [h3] at h
      rcases r3 with e3 | s3
      · simp at h
      · simp only [Prod.mk.injEq, Except.ok.injEq] at h
        obtain ⟨hres, htr⟩ := h
        subst hres
        exact ⟨t1, t2, t3, rfl, rfl, h3, htr.symm⟩

/-- C8 fails as stated: the number of requests `get_comprehensive_advice` issues
does depend on the requests' outcomes — on an oracle whose every request raises,
it issues one request, not three. -/
theorem C8_counterexample :
    (AgenticCareerAdvisor.get_comprehensive_advice failOracle wAdvisor wProfile).2.length = 1
    ∧ (AgenticCareerAdvisor.get_comprehensive_advice failOracle wAdvisor wProfile).2.length
        ≠ 3 := by
  have h1 : (AgenticCareerAdvisor.get_comprehensive_advice failOracle wAdvisor
      wProfile).2.length = 1 := rfl
  refine ⟨h1, ?_⟩
  rw [h1]
  decide

/-- C8 amended: each of the four single operations issues exactly one model
request per invocation whatever the oracle does; `get_comprehensive_advice`
issues at most three, and exactly three on every invocation that returns its
dict (a raised exception stops the sequence early); no operation ever retries
or issues more than its listed sequence. -/
theorem C8_request_counts :
    (∀ (o : Oracle) adv p, (AgenticCareerAdvisor.analyze_skills o adv p).2.length = 1)
    ∧ (∀ (o : Oracle) adv p, (AgenticCareerAdvisor.find_career_matches o adv p).2.length = 1)
    ∧ (∀ (o : Oracle) adv p t,
        (AgenticCareerAdvisor.create_learning_path o adv p t).2.length = 1)
    ∧ (∀ (o : Oracle) adv i, (AgenticCareerAdvisor.research_industry o adv i).2.length = 1)
    ∧ (∀ (o : Oracle) adv p,
        (AgenticCareerAdvisor.get_comprehensive_advice o adv p).2.length ≤ 3)
    ∧ (∀ (o : Oracle) adv p res tr,
        AgenticCareerAdvisor.get_comprehensive_advice o adv p = (Except.ok res, tr) →
        tr.length = 3) := by
  refine ⟨?_, ?_, ?_, ?_, ?_, ?_⟩
  · intro o adv p
    rw [analyze_skills_trace]
    rfl
  · intro o adv p
    rw [find_career_matches_trace]
    rfl
  · intro o adv p t
    rw [create_learning_path_trace]
    rfl
  · intro o adv i
    rw [research_industry_trace]
    rfl
  · intro o adv p
    have ht1 := analyze_skills_trace o adv p
    have ht2 := find_career_matches_trace o adv p
    unfold AgenticCareerAdvisor.get_comprehensive_advice
    rcases h1 : AgenticCareerAdvisor.analyze_skills o adv p with ⟨r1, t1⟩
    rw [h1] at ht1
    rcases r1 with e1 | s1
    · simp_all
    · rcases h2 : AgenticCareerAdvisor.find_career_matches o adv p with ⟨r2, t2⟩
      rw [h2] at ht2
      rcases r2 with e2 | s2
      · simp_all
      · have ht3 := process_trace o (adv.agents AgentRole.coordinator)
          (coordinatorQuery s1 s2 (AgenticCareerAdvisor.create_student_context p)) none
        rcases h3 : CareerAdvisorAgent.process o (adv.agents AgentRole.coordinator)
            (coordinatorQuery s1 s2 (AgenticCareerAdvisor.create_student_context p)) none
          with ⟨r3, t3⟩
        rw [h3] at ht3
        rcases r3 with e3 | s3 <;> simp_all
  · intro o adv p res tr h
    obtain ⟨t1, t2, t3, h1, h2, h3, htr⟩ := comprehensive_ok_elim o adv p res tr h
    have ht1 : t1 = [⟨AgentRole.skills_analyzer,
        (adv.agents AgentRole.skills_analyzer).buildRequest skillsQuery
          (some [("profile", AgenticCareerAdvisor.create_student_context p)])⟩] := by
      have hh := analyze_skills_trace o adv p
      rw [h1] at hh
      exact hh
    have ht2 : t2 = [⟨AgentRole.career_matcher,
        (adv.agents AgentRole.career_matcher).buildRequest matchesQuery
          (some [("profile", AgenticCareerAdvisor.create_student_context p)])⟩] := by
      have hh := find_career_matches_trace o adv p
      rw [h2] at hh
      exact hh
    have ht3 : t3 = [⟨AgentRole.coordinator,
        (adv.agents AgentRole.coordinator).buildRequest
          (coordinatorQuery res.skills_analysis res.career_matches
            (AgenticCareerAdvisor.create_student_context p)) none⟩] := by
      have hh := process_trace o (adv.agents AgentRole.coordinator)
        (coordinatorQuery res.skills_analysis res.career_matches
          (AgenticCareerAdvisor.create_student_context p)) none
      rw [h3] at hh
      exact hh
    subst htr
    simp [ht1, ht2, ht3]

/-- C5: the string returned to the caller is exactly the text of the first
content block of the model's response, unchanged: `process` returns it without
modification, and each endpoint running over a constructed advisor wraps that
exact string in its response model field without transformation. -/
theorem C5_verbatim_reply (o : Oracle) :
    (∀ (a : CareerAdvisorAgent) (q : String) (ctx : Option (List (String × String)))
        (b : ContentBlock) (rest : List ContentBlock),
        o (a.buildRequest q ctx) = Except.ok { content := b :: rest } →
        (CareerAdvisorAgent.process o a q ctx).1 = Except.ok b.text)
    ∧ (∀ (adv : AgenticCareerAdvisor) (p : StudentProfileRequest) (b : ContentBlock)
        (rest : List ContentBlock),
        o ((adv.agents AgentRole.skills_analyzer).buildRequest skillsQuery
            (some [("profile", AgenticCareerAdvisor.create_student_context
              (convert_to_base_profile p))])) = Except.ok { content := b :: rest } →
        ApiServer.analyze_skills (some (adv.ops o)) p = ApiResult.ok { analysis := b.text })
    ∧ (∀ (adv : AgenticCareerAdvisor) (p : StudentProfileRequest) (b : ContentBlock)
        (rest : List ContentBlock),
        o ((adv.agents AgentRole.career_matcher).buildRequest matchesQuery
            (some [("profile", AgenticCareerAdvisor.create_student_context
              (convert_to_base_profile p))])) = Except.ok { content := b :: rest } →
        ApiServer.match_careers (some (adv.ops o)) p = ApiResult.ok { matches_ := b.text })
    ∧ (∀ (adv : AgenticCareerAdvisor) (rq : LearningPathRequest) (b : ContentBlock)
        (rest : List ContentBlock),
        o ((adv.agents AgentRole.learning_pathfinder).buildRequest
            (learningPathQuery rq.target_career)
            (some [("profile", AgenticCareerAdvisor.create_student_context
              (convert_to_base_profile rq.profile))])) = Except.ok { content := b :: rest } →
        ApiServer.create_learning_path (some (adv.ops o)) rq
          = ApiResult.ok { learning_path := b.text })
    ∧ (∀ (adv : AgenticCareerAdvisor) (industry_name : String) (b : ContentBlock)
        (rest : List ContentBlock),
        o ((adv.agents AgentRole.industry_researcher).buildRequest
            (industryQuery industry_name) none) = Except.ok { content := b :: rest } →
        ApiServer.research_industry (some (adv.ops o)) industry_name
          = ApiResult.ok { research := b.text }) := by
  refine ⟨?_, ?_, ?_, ?_, ?_⟩
  · intro a q ctx b rest h
    unfold CareerAdvisorAgent.process
    rw [h]
  · intro adv p b rest h
    have hp : (AgenticCareerAdvisor.analyze_skills o adv (convert_to_base_profile p)).1
        = Except.ok b.text := by
      unfold AgenticCareerAdvisor.analyze_skills CareerAdvisorAgent.process
      rw [h]
    simp [ApiServer.analyze_skills, AgenticCareerAdvisor.ops, hp]
  · intro adv p b rest h
    have hp : (AgenticCareerAdvisor.find_career_matches o adv (convert_to_base_profile p)).1
        = Except.ok b.text := by
      unfold AgenticCareerAdvisor.find_career_matches CareerAdvisorAgent.process
      rw [h]
    simp [ApiServer.match_careers, AgenticCareerAdvisor.ops, hp]
  · intro adv rq b rest h
    have hp : (AgenticCareerAdvisor.create_learning_path o adv
          (convert_to_base_profile rq.profile) rq.target_career).1 = Except.ok b.text := by
      unfold AgenticCareerAdvisor.create_learning_path CareerAdvisorAgent.process
      rw [h]
    simp [ApiServer.create_learning_path, AgenticCareerAdvisor.ops, hp]
  · intro adv industry_name b rest h
    have hp : (AgenticCareerAdvisor.research_industry o adv industry_name).1
        = Except.ok b.text := by
      unfold AgenticCareerAdvisor.research_industry CareerAdvisorAgent.process
      rw [h]
    simp [ApiServer.research_industry, AgenticCareerAdvisor.ops, hp]

/-- Witness for C5 on the constant oracle: every surface hands back the response
text `"REPLY"` unchanged. -/
theorem C5_verbatim_reply_witness :
    (CareerAdvisorAgent.process wOracle (CareerAdvisorAgent.init AgentRole.coordinator "k")
        "q" none).1 = Except.ok "REPLY"
    ∧ ApiServer.analyze_skills (some (wAdvisor.ops wOracle)) wRequest
        = ApiResult.ok { analysis := "REPLY" }
    ∧ ApiServer.match_careers (some (wAdvisor.ops wOracle)) wRequest
        = ApiResult.ok { matches_ := "REPLY" }
    ∧ ApiServer.create_learning_path (some (wAdvisor.ops wOracle)) wLearnRequest
        = ApiResult.ok { learning_path := "REPLY" }
    ∧ ApiServer.research_industry (some (wAdvisor.ops wOracle)) "tech"
        = ApiResult.ok { research := "REPLY" } :=
  ⟨(C5_verbatim_reply wOracle).1 (CareerAdvisorAgent.init AgentRole.coordinator "k")
      "q" none ⟨"REPLY"⟩ [] rfl,
   (C5_verbatim_reply wOracle).2.1 wAdvisor wRequest ⟨"REPLY"⟩ [] rfl,
   (C5_verbatim_reply wOracle).2.2.1 wAdvisor wRequest ⟨"REPLY"⟩ [] rfl,
   (C5_verbatim_reply wOracle).2.2.2.1 wAdvisor wLearnRequest ⟨"REPLY"⟩ [] rfl,
   (C5_verbatim_reply wOracle).2.2.2.2 wAdvisor "tech" ⟨"REPLY"⟩ [] rfl⟩

/-- C1: every invocation of `get_comprehensive_advice` that returns its dict ran
exactly the three agent calls skills_analyzer, career_matcher, coordinator in
that order; the dict's `skills_analysis` and `career_matches` entries are the
first and the second call's outputs; the coordinator's single user message is
the coordinator query built from those two outputs together with the serialized
profile — so it contains both outputs and the profile block verbatim — and
`action_plan` is the coordinator call's own output. -/
theorem C1_comprehensive_advice (o : Oracle) (adv : AgenticCareerAdvisor)
    (p : StudentProfile) (res : ComprehensiveAdvice) (tr : List Call)
    (h : AgenticCareerAdvisor.get_comprehensive_advice o adv p = (Except.ok res, tr)) :
    tr.map Call.agent
      = [AgentRole.skills_analyzer, AgentRole.career_matcher, AgentRole.coordinator]
    ∧ (AgenticCareerAdvisor.analyze_skills o adv p).1 = Except.ok res.skills_analysis
    ∧ (AgenticCareerAdvisor.find_career_matches o adv p).1 = Except.ok res.career_matches
    ∧ ∃ c3, tr[2]? = some c3
        ∧ c3.agent = AgentRole.coordinator
        ∧ c3.request.messages = [Message.mk "user"
            (coordinatorQuery res.skills_analysis res.career_matches
              (AgenticCareerAdvisor.create_student_context p))]
        ∧ (∃ u v, coordinatorQuery res.skills_analysis res.career_matches
            (AgenticCareerAdvisor.create_student_context p)
              = u ++ res.skills_analysis ++ v)
        ∧ (∃ u v, coordinatorQuery res.skills_analysis res.career_matches
            (AgenticCareerAdvisor.create_student_context p)
              = u ++ res.career_matches ++ v)
        ∧ (∃ u v, coordinatorQuery res.skills_analysis res.career_matches
            (AgenticCareerAdvisor.create_student_context p)
              = u ++ AgenticCareerAdvisor.create_student_context p ++ v)
        ∧ ∃ rest, o c3.request = Except.ok { content := ⟨res.action_plan⟩ :: rest } := by
  obtain ⟨t1, t2, t3, h1, h2, h3, htr⟩ := comprehensive_ok_elim o adv p res tr h
  have ht1 : t1 = [⟨AgentRole.skills_analyzer,
      (adv.agents AgentRole.skills_analyzer).buildRequest skillsQuery
        (some [("profile", AgenticCareerAdvisor.create_student_context p)])⟩] := by
    have hh := analyze_skills_trace o adv p
    rw [h1] at hh
    exact hh
  have ht2 : t2 = [⟨AgentRole.career_matcher,
      (adv.agents AgentRole.career_matcher).buildRequest matchesQuery
        (some [("profile", AgenticCareerAdvisor.create_student_context p)])⟩] := by
    have hh := find_career_matches_trace o adv p
    rw [h2] at hh
    exact hh
  have ht3 : t3 = [⟨AgentRole.coordinator,
      (adv.agents AgentRole.coordinator).buildRequest
        (coordinatorQuery res.skills_analysis res.career_matches
          (AgenticCareerAdvisor.create_student_context p)) none⟩] := by
    have hh := process_trace o (adv.agents AgentRole.coordinator)
      (coordinatorQuery res.skills_analysis res.career_matches
        (AgenticCareerAdvisor.create_student_context p)) none
    rw [h3] at hh
    exact hh
  subst htr
  refine ⟨?_, ?_, ?_, ?_⟩
  · simp [ht1, ht2, ht3]
  · rw [h1]
  · rw [h2]
  · refine ⟨⟨AgentRole.coordinator, (adv.agents AgentRole.coordinator).buildRequest
        (coordinatorQuery res.skills_analysis res.career_matches
          (AgenticCareerAdvisor.create_student_context p)) none⟩, ?_, rfl, rfl, ?_, ?_, ?_, ?_⟩
    · simp [ht1, ht2, ht3]
    · refine ⟨"\nBased on the following analyses, provide comprehensive career advice:\n\nSKILLS ANALYSIS:\n",
        "\n\nCAREER MATCHES:\n" ++ res.career_matches ++ "\n\nStudent Profile:\n"
          ++ AgenticCareerAdvisor.create_student_context p
          ++ "\n\nProvide a cohesive career action plan.\n", ?_⟩
      simp [coordinatorQuery, String.append_assoc]
    · refine ⟨"\nBased on the following analyses, provide comprehensive career advice:\n\nSKILLS ANALYSIS:\n"
          ++ res.skills_analysis ++ "\n\nCAREER MATCHES:\n",
        "\n\nStudent Profile:\n" ++ AgenticCareerAdvisor.create_student_context p
          ++ "\n\nProvide a cohesive career action plan.\n", ?_⟩
      simp [coordinatorQuery, String.append_assoc]
    · refine ⟨"\nBased on the following analyses, provide comprehensive career advice:\n\nSKILLS ANALYSIS:\n"
          ++ res.skills_analysis ++ "\n\nCAREER MATCHES:\n" ++ res.career_matches
          ++ "\n\nStudent Profile:\n",
        "\n\nProvide a cohesive career action plan.\n", ?_⟩
      simp [coordinatorQuery, String.append_assoc]
    · exact process_ok o (adv.agents AgentRole.coordinator)
        (coordinatorQuery res.skills_analysis res.career_matches
          (AgenticCareerAdvisor.create_student_context p)) none res.action_plan t3 h3

/-- Witness for C1 on the constant oracle: the dict's first entry is the first
call's output. -/
theorem C1_comprehensive_advice_witness :
    (AgenticCareerAdvisor.analyze_skills wOracle wAdvisor wProfile).1 = Except.ok "REPLY" :=
  (C1_comprehensive_advice wOracle wAdvisor wProfile
      (ComprehensiveAdvice.mk "REPLY" "REPLY" "REPLY")
      (AgenticCareerAdvisor.get_comprehensive_advice wOracle wAdvisor wProfile).2
      (by rfl)).2.1
